import Mathlib

/-!
Verification development for the CAREU diagnostic pipeline
(`src/cloud-agents/`).  The Python core is shallowly embedded: pure
functions become Lean functions over `String`, `List`, `ℤ` and `ℚ`;
Python dictionaries become association lists (insertion ordered, as in
CPython); `None`-able values become `Option`.  Python floats are modelled
by rationals, and `round(x, 2)` by round-half-to-even on rationals.
Python truthiness tests (`if age`, `if severity_scores`, `if red_flags`,
`if time_sensitive`) are modelled exactly, including their behaviour on
`0`, empty containers and `None`.

Sources embedded here:
- `2_patient_intake_agent.py` (SymptomExtractor),
- `4_symptom_analysis_agent.py` (SimplifiedMeTTaEngine fallback store,
  SymptomAnalyzer),
- `5_treatment_recommendation_agent.py` (fallback store,
  TreatmentRecommender).
-/

/-! ## Small Python-semantics helpers -/

/-- Membership of one character list inside another, as Python's
`needle in haystack` substring test (empty needle always matches). -/
def listIsInfixOf (n : List Char) : List Char → Bool
  | [] => n.isEmpty
  | c :: rest => n.isPrefixOf (c :: rest) || listIsInfixOf n rest

/-- Python's `needle in haystack` on strings. -/
def pyIn (needle hay : String) : Bool :=
  listIsInfixOf needle.toList hay.toList

/-- Python's `s.lower()` restricted to the ASCII texts this repository
handles; `Char.toLower` lower-cases exactly the ASCII letters.  (Stated on
the character list so that the kernel can evaluate it.) -/
def pyLower (s : String) : String := String.mk (s.toList.map Char.toLower)

/-- `s.lower().replace(" ", "-").replace("_", "-")`
(`4_symptom_analysis_agent.py` lines 643, 648, 668, 690).  Both patterns
are single characters, so the two sequential `str.replace` calls equal one
character-wise map. -/
def normalizeSymptom (s : String) : String :=
  String.mk ((pyLower s).toList.map (fun c => if c = ' ' ∨ c = '_' then '-' else c))

/-- `condition.lower().replace(" ", "-")`
(`5_treatment_recommendation_agent.py` line 439). -/
def normalizeCond (s : String) : String :=
  String.mk ((pyLower s).toList.map (fun c => if c = ' ' then '-' else c))

/-!
Exact rational arithmetic, written through `Rat.divInt` so that every
definition below evaluates inside the kernel (the library's `Rat.add`,
`Rat.mul`, `Rat.sub` and `Rat.div` are `@[irreducible]`).  `qAdd_eq`,
`qSub_eq`, `qMul_eq` and `qDiv_eq` below prove these are exactly the field
operations of `ℚ`; rational constants are written `mkRat n d`.
-/

/-- Kernel-evaluable `a + b` on `ℚ`. -/
def qAdd (a b : ℚ) : ℚ := Rat.divInt (a.num * b.den + a.den * b.num) ((a.den : ℤ) * b.den)

/-- Kernel-evaluable `a - b` on `ℚ`. -/
def qSub (a b : ℚ) : ℚ := qAdd a (Rat.neg b)

/-- Kernel-evaluable `a * b` on `ℚ`. -/
def qMul (a b : ℚ) : ℚ := Rat.divInt (a.num * b.num) ((a.den : ℤ) * b.den)

/-- Kernel-evaluable `a / b` on `ℚ` (`0` when `b = 0`, as in the library). -/
def qDiv (a b : ℚ) : ℚ := Rat.divInt (a.num * b.den) ((a.den : ℤ) * b.num)

/-- Round-half-to-even to an integer, Python's `round` on rationals. -/
def pyRoundInt (x : ℚ) : ℤ :=
  let f : ℤ := ⌊x⌋
  let r : ℚ := qSub x (f : ℚ)
  if r < mkRat 1 2 then f
  else if mkRat 1 2 < r then f + 1
  else if f % 2 = 0 then f else f + 1

/-- Python's `round(x, 2)` modelled on rationals. -/
def pyRound2 (x : ℚ) : ℚ := qDiv (pyRoundInt (qMul x 100) : ℚ) 100

/-! ## Patient intake agent: `SymptomExtractor`
(`2_patient_intake_agent.py`, lines 25-31 and 70-190). -/

/-- The `Symptom` message model (`2_patient_intake_agent.py` lines 25-31). -/
structure Symptom where
  name : String
  raw_text : String
  severity : ℕ
  duration : Option String
deriving DecidableEq, Repr

/-- `SYMPTOM_KEYWORDS` (lines 70-109), an insertion-ordered dict in the
source, transcribed as an ordered association list. -/
def SYMPTOM_KEYWORDS : List (String × List String) := [
  ("high-fever", ["high fever", "very high temperature", "burning up with fever"]),
  ("fever", ["fever", "high temperature", "temp", "hot"]),
  ("chills", ["chills", "shivering", "shaking", "cold"]),
  ("severe-headache", ["severe headache", "terrible headache", "worst headache", "intense headache"]),
  ("headache", ["headache", "head pain", "head hurts", "migraine", "head ache"]),
  ("dizziness", ["dizzy", "lightheaded", "vertigo", "spinning"]),
  ("confusion", ["confused", "disoriented", "foggy", "can't think"]),
  ("neck-stiffness", ["neck is very stiff", "neck is stiff", "very stiff neck", "extremely stiff neck"]),
  ("stiff-neck", ["stiff neck", "neck stiff", "can't move neck", "neck hurts to move"]),
  ("difficulty-breathing", ["difficulty breathing", "hard to breathe", "can't breathe well"]),
  ("shortness-of-breath", ["short of breath", "can't breathe", "breathless", "gasping"]),
  ("cough", ["cough", "coughing", "hacking"]),
  ("sore-throat", ["sore throat", "throat pain", "hurts to swallow"]),
  ("nausea", ["nausea", "nauseous", "queasy", "sick to stomach"]),
  ("vomiting", ["vomiting", "throwing up", "vomit", "puking"]),
  ("diarrhea", ["diarrhea", "loose stool", "runny stool"]),
  ("abdominal-pain", ["stomach pain", "abdominal pain", "belly pain", "stomach ache"]),
  ("chest-pain", ["chest pain", "chest hurts", "chest pressure"]),
  ("muscle-pain", ["muscle pain", "body aches", "sore muscles", "aching"]),
  ("joint-pain", ["joint pain", "joints hurt", "stiff joints"]),
  ("rash", ["rash", "skin rash", "spots", "bumps"]),
  ("fatigue", ["tired", "fatigue", "exhausted", "weakness", "weak"]),
  ("loss-of-consciousness", ["passed out", "fainted", "blacked out", "unconscious"])]

/-- `SEVERITY_HIGH` (line 112). -/
def SEVERITY_HIGH : List String :=
  ["severe", "extreme", "worst", "unbearable", "terrible", "intense"]

/-- `SEVERITY_MEDIUM` (line 113). -/
def SEVERITY_MEDIUM : List String := ["moderate", "significant", "bad", "strong"]

/-- `SEVERITY_LOW` (line 114). -/
def SEVERITY_LOW : List String := ["mild", "slight", "little bit", "somewhat"]

/-- `SymptomExtractor._estimate_severity` (lines 155-165); `text` is the
already lower-cased input. -/
def estimate_severity (text : String) : ℕ :=
  if SEVERITY_HIGH.any (fun w => pyIn w text) then 8
  else if SEVERITY_MEDIUM.any (fun w => pyIn w text) then 5
  else if SEVERITY_LOW.any (fun w => pyIn w text) then 3
  else 5

/-- The unit alternation `(day|days|hour|hours|week|weeks)` of the duration
regexes (lines 171 and 177), in the source's alternative order. -/
def durationUnits : List String := ["day", "days", "hour", "hours", "week", "weeks"]

/-- One attempt of `re.search(r'for\s+(\d+)\s+(day|days|hour|hours|week|weeks)', ...)`
anchored at the head of `cs`.  Greedy `\s+`/`\d+` need no backtracking here
because each class is disjoint from what follows it; the alternation is
tried left to right, and `"day"` (a prefix of `"days"`) always wins when
either would match, exactly as in Python where nothing follows the group. -/
def matchForAt (cs : List Char) : Option (String × String) :=
  if "for".toList.isPrefixOf cs then
    let r0 := cs.drop 3
    if (r0.takeWhile Char.isWhitespace).isEmpty then none else
    let r1 := r0.dropWhile Char.isWhitespace
    let ds := r1.takeWhile Char.isDigit
    if ds.isEmpty then none else
    let r2 := r1.dropWhile Char.isDigit
    if (r2.takeWhile Char.isWhitespace).isEmpty then none else
    let r3 := r2.dropWhile Char.isWhitespace
    match durationUnits.find? (fun u => u.toList.isPrefixOf r3) with
    | some u => some (String.mk ds, u)
    | none => none
  else none

/-- One attempt of `re.search(r'(\d+)\s+(day|days|hour|hours|week|weeks)\s+ago', ...)`
anchored at the head of `cs`.  Here material follows the alternation, so an
alternative that matches but is not followed by `\s+ago` is rejected and
the next alternative is tried — Python's backtracking, made explicit. -/
def matchAgoAt (cs : List Char) : Option (String × String) :=
  let ds := cs.takeWhile Char.isDigit
  if ds.isEmpty then none else
  let r1 := cs.dropWhile Char.isDigit
  if (r1.takeWhile Char.isWhitespace).isEmpty then none else
  let r2 := r1.dropWhile Char.isWhitespace
  match durationUnits.find? (fun u =>
      u.toList.isPrefixOf r2 &&
      (let r3 := r2.drop u.length
       !(r3.takeWhile Char.isWhitespace).isEmpty &&
       "ago".toList.isPrefixOf (r3.dropWhile Char.isWhitespace))) with
  | some u => some (String.mk ds, u)
  | none => none

/-- `re.search`'s leftmost-match scan: try the anchored matcher at every
suffix, left to right. -/
def searchPat {α : Type} (f : List Char → Option α) : List Char → Option α
  | [] => f []
  | c :: rest =>
    match f (c :: rest) with
    | some r => some r
    | none => searchPat f rest

/-- `SymptomExtractor._extract_duration` (lines 167-190); `text` is the
already lower-cased input. -/
def extract_duration (text : String) : Option String :=
  match searchPat matchForAt text.toList with
  | some (n, u) => some (n ++ " " ++ u)
  | none =>
    match searchPat matchAgoAt text.toList with
    | some (n, u) => some (n ++ " " ++ u)
    | none =>
      if pyIn "yesterday" text then some "1 day"
      else if pyIn "this morning" text || pyIn "today" text then some "hours"
      else if pyIn "this week" text then some "days"
      else none

/-- `SymptomExtractor.extract_symptoms` (lines 124-153): for each canonical
symptom in table order, the first keyword variant found in the lower-cased
text emits one record (the inner `break` stops after the first variant of
that symptom only; every symptom entry is tested independently). -/
def extract_symptoms (text : String) : List Symptom :=
  let tl := pyLower text
  SYMPTOM_KEYWORDS.filterMap fun p =>
    match p.2.find? (fun k => pyIn k tl) with
    | some k => some ⟨p.1, k, estimate_severity tl, extract_duration tl⟩
    | none => none

/-! ## Symptom analysis agent (`4_symptom_analysis_agent.py`) -/

/-- The query-engine operations `SymptomAnalyzer` uses
(`SimplifiedMeTTaEngine`, lines 443-563), abstracted over the backend so
theorems quantify over both the pattern-matching and the fallback
implementation. -/
structure Engine where
  find_red_flag_symptoms : List String
  find_conditions_by_symptoms : List String → List (String × ℕ)
  find_urgency_level : String → String
  find_symptoms_by_condition : String → List String
  check_time_sensitivity : String → Option ℤ

/-- Stable descending sort on the second component, Python's
`sorted(items, key=lambda x: x[1], reverse=True)` (stable mergesort). -/
def sortBySndDesc {α : Type} [LinearOrder α] (l : List (String × α)) : List (String × α) :=
  l.mergeSort (fun a b => decide (b.2 ≤ a.2))

/-- `SimplifiedMeTTaEngine._init_fallback_kb` condition→symptoms dict
(lines 463-472). -/
def fallbackConditionSymptoms : List (String × List String) := [
  ("meningitis", ["fever", "severe-headache", "stiff-neck", "neck-stiffness", "confusion", "nausea", "vomiting"]),
  ("stroke", ["face-drooping", "arm-weakness", "speech-difficulty", "slurred-speech", "confusion", "dizziness"]),
  ("heart-attack", ["chest-pain", "shortness-of-breath", "radiating-pain-left-arm"]),
  ("pneumonia", ["cough", "fever", "chest-pain", "shortness-of-breath", "chills", "fatigue"]),
  ("influenza", ["fever", "cough", "sore-throat", "muscle-aches", "body-aches", "fatigue", "headache", "chills"]),
  ("covid-19", ["fever", "cough", "shortness-of-breath", "fatigue", "loss-of-taste", "loss-of-smell"]),
  ("migraine", ["headache", "nausea", "vomiting", "light-sensitivity"]),
  ("gastroenteritis", ["diarrhea", "nausea", "vomiting", "abdominal-pain"])]

/-- `_init_fallback_kb` urgency dict (lines 473-482). -/
def fallbackUrgencyMap : List (String × String) := [
  ("meningitis", "emergency"),
  ("stroke", "emergency"),
  ("heart-attack", "emergency"),
  ("pneumonia", "urgent"),
  ("influenza", "routine"),
  ("covid-19", "urgent"),
  ("migraine", "routine"),
  ("gastroenteritis", "routine")]

/-- `_init_fallback_kb` red-flag list (lines 483-484). -/
def fallbackRedFlags : List String :=
  ["chest-pain", "face-drooping", "stiff-neck", "neck-stiffness",
   "altered-mental-status", "shortness-of-breath", "coughing-blood"]

/-- The dictionary-fallback backend (`kb_loaded = False` branch of every
`SimplifiedMeTTaEngine` query method, lines 460-563): `find_urgency_level`
defaults to `"routine"` for an absent condition (line 526),
`check_time_sensitivity` is always `None` (line 563), and
`find_conditions_by_symptoms` counts, per condition, the input symptoms
occurring in its symptom list, keeps positive counts and sorts them
descending (lines 508-515). -/
def fallbackEngine : Engine where
  find_red_flag_symptoms := fallbackRedFlags
  find_conditions_by_symptoms := fun symptoms =>
    sortBySndDesc (fallbackConditionSymptoms.filterMap fun p =>
      let m := (symptoms.filter (fun s => p.2.contains s)).length
      if 0 < m then some (p.1, m) else none)
  find_urgency_level := fun c => (fallbackUrgencyMap.lookup c).getD "routine"
  find_symptoms_by_condition := fun c => (fallbackConditionSymptoms.lookup c).getD []
  check_time_sensitivity := fun _ => none

/-- `SymptomAnalyzer.detect_red_flags` (lines 637-663): individual red-flag
membership after normalization, then the three fixed combination rules, in
the source's append order. -/
def detect_red_flags (e : Engine) (symptoms : List String) : List String :=
  let base := symptoms.filter (fun s => e.find_red_flag_symptoms.contains (normalizeSymptom s))
  let sset := symptoms.map normalizeSymptom
  let triad :=
    if (["severe-headache", "fever", "neck-stiffness"].all (fun x => sset.contains x)) ||
       (["severe-headache", "fever", "stiff-neck"].all (fun x => sset.contains x)) then
      ["Meningitis triad (headache + fever + neck stiffness)"]
    else []
  let fast :=
    if sset.contains "face-drooping" || sset.contains "arm-weakness" ||
       sset.contains "slurred-speech" then
      ["Stroke warning signs (FAST protocol)"]
    else []
  let cardiac :=
    if sset.contains "chest-pain" then
      ["Chest pain (potential cardiac emergency)"]
    else []
  base ++ triad ++ fast ++ cardiac

/-- `SymptomAnalyzer.find_matching_conditions` (lines 665-671). -/
def find_matching_conditions (e : Engine) (symptoms : List String) : List String :=
  (e.find_conditions_by_symptoms (symptoms.map normalizeSymptom)).map Prod.fst

/-- The loop body of `SymptomAnalyzer.calculate_confidence_scores`
(lines 682-706): the score of one condition.  `severity_scores` is an
optional dict of per-symptom integers; Python's `if severity_scores:` is
falsy both for `None` and for an empty dict, so the severity weight stays
`1.0` in those cases.  The matched-symptom count is a set intersection
(`dedup` models the `set(...)` on the patient side); the denominator is
the raw length of the condition's symptom list. -/
def condition_confidence (e : Engine) (symptoms : List String)
    (severity_scores : Option (List (String × ℤ))) (c : String) : ℚ :=
  let cs := e.find_symptoms_by_condition c
  if cs.isEmpty then 0
  else
    let matched := ((symptoms.map normalizeSymptom).dedup).filter (fun s => cs.contains s)
    let matchRatio : ℚ := qDiv (matched.length : ℚ) (cs.length : ℚ)
    let weight : ℚ :=
      match severity_scores with
      | some m =>
        if m.isEmpty then 1
        else
          let avg : ℚ := qDiv ((matched.map (fun s => ((m.lookup s).getD 5 : ℤ))).sum : ℚ)
            ((max matched.length 1 : ℕ) : ℚ)
          qAdd (mkRat 1 2) (qDiv avg 20)
      | none => 1
    pyRound2 (min (qMul matchRatio weight) 1)

/-- `SymptomAnalyzer.calculate_confidence_scores` (lines 673-708), the
dict of per-condition scores in iteration order. -/
def calculate_confidence_scores (e : Engine) (symptoms : List String)
    (conditions : List String) (severity_scores : Option (List (String × ℤ))) :
    List (String × ℚ) :=
  conditions.map fun c => (c, condition_confidence e symptoms severity_scores c)

/-- The `for condition, confidence in confidence_scores.items():` loop of
`SymptomAnalyzer.assess_urgency` (lines 723-742), with the loop's early
`return "emergency"` statements expressed as a short-circuiting result and
`highest_urgency` threaded as the accumulator `h`.  Python's
`if time_sensitive and time_sensitive <= 6:` is falsy for `None` and `0`. -/
def urgencyScan (e : Engine) : List (String × ℚ) → String → String
  | [], h => h
  | (c, conf) :: rest, h =>
    if mkRat 1 2 < conf then
      let u := e.find_urgency_level c
      if u = "emergency" ∨ c = "meningitis" ∨ c = "stroke" ∨ c = "heart-attack" then
        "emergency"
      else
        let tsB : Bool :=
          match e.check_time_sensitivity c with
          | some t => t != 0 && decide (t ≤ 6)
          | none => false
        if tsB then "emergency"
        else urgencyScan e rest (if u = "urgent-24h" then "urgent" else h)
    else if mkRat 3 10 < conf then
      let u := e.find_urgency_level c
      urgencyScan e rest (if u = "emergency" ∨ u = "urgent-24h" then "urgent" else h)
    else urgencyScan e rest h

/-- `SymptomAnalyzer.assess_urgency` (lines 710-750).  A non-empty red-flag
list returns `"emergency"` at once; otherwise the confidence scan runs from
`"routine"`, and the age adjustment applies afterwards (an `"emergency"`
produced inside the loop returns from the Python function before the age
check, and passes through the age check unchanged here because the check
only rewrites `"routine"`).  Python's `if age and (...)` is falsy for both
`None` and age `0`.  The `conditions` argument is unused, as in the
source. -/
def assess_urgency (e : Engine) (conditions red_flags : List String)
    (confidence_scores : List (String × ℚ)) (age : Option ℤ) : String :=
  if red_flags = [] then
    let h := urgencyScan e confidence_scores "routine"
    match age with
    | none => h
    | some a =>
      if a ≠ 0 ∧ (a < 5 ∨ 65 < a) then
        if confidence_scores.any (fun p => decide (mkRat 2 5 < p.2)) then
          if h = "routine" then "urgent" else h
        else h
      else h
  else "emergency"

/-- `SymptomAnalyzer.generate_differential_diagnoses` (lines 752-769): sort
descending, take the first `maxCount`, keep confidences above `0.2`; if
fewer than two survive while at least two conditions were scored, fall back
to the top two. -/
def generate_differential_diagnoses (confidence_scores : List (String × ℚ))
    (maxCount : ℕ) : List String :=
  let sorted := sortBySndDesc confidence_scores
  let differential :=
    ((sorted.take maxCount).filter (fun p => decide (mkRat 1 5 < p.2))).map Prod.fst
  if differential.length < 2 ∧ 2 ≤ sorted.length then
    (sorted.take 2).map Prod.fst
  else differential

/-- `SymptomAnalyzer.recommend_action` (lines 771-780). -/
def recommend_action (urgency_level : String) (red_flags : List String) : String :=
  if urgency_level = "emergency" then
    if red_flags ≠ [] then
      "🚨 EMERGENCY: Call 911 or go to ER immediately. Red flags detected."
    else "🚨 EMERGENCY: Seek immediate medical attention at ER."
  else if urgency_level = "urgent" then
    "⚠️ URGENT: Schedule medical appointment within 24 hours."
  else "📋 ROUTINE: Schedule appointment with primary care physician."

/-- The fields of `SymptomAnalyzer.analyze_symptoms`'s result dict that
carry analysis data (lines 628-635); the `reasoning_chain` log strings are
not modelled. -/
structure AnalysisResult where
  urgency_level : String
  red_flags : List String
  differential_diagnoses : List String
  confidence_scores : List (String × ℚ)
  recommended_next_step : String
deriving Repr

/-- `SymptomAnalyzer.analyze_symptoms` (lines 576-635): the six-step
pipeline.  `medical_history` is accepted and unused, as in the source. -/
def analyze_symptoms (e : Engine) (symptoms : List String) (age : Option ℤ)
    (severity_scores : Option (List (String × ℤ)))
    (medical_history : Option (List String)) : AnalysisResult :=
  let red_flags := detect_red_flags e symptoms
  let condition_matches := find_matching_conditions e symptoms
  let confidence_scores := calculate_confidence_scores e symptoms condition_matches severity_scores
  let urgency_level := assess_urgency e condition_matches red_flags confidence_scores age
  let differential_diagnoses := generate_differential_diagnoses confidence_scores 5
  let recommended_next_step := recommend_action urgency_level red_flags
  ⟨urgency_level, red_flags, differential_diagnoses, confidence_scores, recommended_next_step⟩

/-! ## Query-backend urgency contract (`4_symptom_analysis_agent.py`,
`SimplifiedMeTTaEngine.find_urgency_level`, lines 517-526) -/

/-- The `(has-urgency <condition> <urgency>)` facts of the embedded
`METTA_KNOWLEDGE_BASE` string (lines 131, 159, 187, 214, 242, 267, 287,
310, 331, 355, 375, 402, 418), in declaration order.  `myocardial-infarction`
is declared a condition but has no `has-urgency` fact. -/
def kbUrgencyFacts : List (String × String) := [
  ("meningitis", "emergency"),
  ("stroke", "emergency"),
  ("heart-attack", "emergency"),
  ("appendicitis", "emergency"),
  ("pneumonia", "urgent-24h"),
  ("pulmonary-embolism", "emergency"),
  ("sepsis", "emergency"),
  ("migraine", "routine-care"),
  ("influenza", "routine-care"),
  ("gastroenteritis", "routine-care"),
  ("covid-19", "urgent-24h"),
  ("tension-headache", "routine-care"),
  ("common-cold", "routine-care")]

/-- The pattern-matching backend of `find_urgency_level` (lines 517-524).
Modelled from the spec: the hyperon MeTTa interpreter that evaluates
`!(match &self (has-urgency <condition> $urgency) $urgency)` is an external
library not present under `src/`; per the spec (§4.1, "the pattern-matching
backend evaluates each operation as a query over the fact relation named in
the operation") the query returns the urgency paired with the condition in
the embedded fact list, and line 524 returns `"unknown"` when the query has
no result. -/
def patternFindUrgencyLevel (condition : String) : String :=
  (kbUrgencyFacts.lookup condition).getD "unknown"

/-- The dictionary-fallback backend of `find_urgency_level` (line 526):
`self.urgency_map.get(condition, "routine")`. -/
def fallbackFindUrgencyLevel (condition : String) : String :=
  (fallbackUrgencyMap.lookup condition).getD "routine"

/-! ## Treatment recommendation agent (`5_treatment_recommendation_agent.py`) -/

/-- The query-engine operations `TreatmentRecommender` uses for the
treatment list and the safety-warning collection
(`SimplifiedMeTTaEngine`, lines 258-359), abstracted over the backend. -/
structure TreatmentEngine where
  get_treatment_recommendations : String → List String
  check_drug_interaction : String → String → Bool
  get_safety_warning : String → String

/-- `_init_fallback_kb` treatments dict of the treatment agent
(lines 273-282). -/
def fallbackTreatments : List (String × List String) := [
  ("meningitis", ["immediate-911", "emergency-antibiotics", "hospital-admission"]),
  ("stroke", ["immediate-911", "tPA-within-3-hours"]),
  ("heart-attack", ["immediate-911", "aspirin-immediately", "cardiac-catheterization"]),
  ("pneumonia", ["antibiotics-bacterial", "rest-and-fluids", "oxygen-therapy"]),
  ("influenza", ["antiviral-medications", "rest-and-fluids", "symptom-management"]),
  ("covid-19", ["isolation", "antiviral-paxlovid", "rest-and-fluids"]),
  ("migraine", ["triptans", "NSAIDs", "rest-dark-room"]),
  ("gastroenteritis", ["oral-rehydration", "rest", "bland-diet"])]

/-- The treatment agent's dictionary-fallback backend: treatments default
to `[]` (line 308), `check_drug_interaction` is always `False` when the
pattern engine is unavailable (lines 332-338), and the fallback safety
warnings are the two-entry dict of lines 326-330. -/
def treatmentFallbackEngine : TreatmentEngine where
  get_treatment_recommendations := fun c => (fallbackTreatments.lookup c).getD []
  check_drug_interaction := fun _ _ => false
  get_safety_warning := fun t =>
    ([("aspirin-immediately", "Chew, don't swallow whole. Call 911 immediately."),
      ("tPA-within-3-hours", "3-hour window critical. Note symptom start time.")].lookup t).getD ""

/-- `TreatmentRecommender.check_drug_interactions` (lines 483-508):
medication-interaction warnings first, then allergy alerts from a
case-insensitive substring match of each allergy inside each treatment's
display name.  Python's `if current_medications:` / `if allergies:` are
falsy for `None` and for the empty list alike. -/
def check_drug_interactions (e : TreatmentEngine) (treatments : List String)
    (current_medications allergies : Option (List String)) : List String :=
  let meds := (current_medications.getD [])
  let medWarnings :=
    if meds.isEmpty then []
    else treatments.flatMap fun t =>
      meds.filterMap fun m =>
        if e.check_drug_interaction (normalizeCond t) (normalizeCond m) then
          some ("⚠️ Drug interaction: " ++ t ++ " may interact with " ++ m)
        else none
  let alls := (allergies.getD [])
  let allergyWarnings :=
    if alls.isEmpty then []
    else treatments.flatMap fun t =>
      alls.filterMap fun a =>
        if pyIn (pyLower a) (pyLower t) then
          some ("🚫 ALLERGY ALERT: " ++ t ++ " may contain " ++ a)
        else none
  medWarnings ++ allergyWarnings

/-- The fields of `TreatmentRecommender.recommend_treatments`'s result dict
that the claims concern (lines 427-435); evidence sources,
contraindications, specialist referral, follow-up timeline and the
reasoning log are not modelled. -/
structure TreatmentResult where
  treatments : List String
  safety_warnings : List String
deriving Repr

/-- `TreatmentRecommender.recommend_treatments` (lines 372-435), restricted
to the treatment list (steps 1) and the safety-warning collection (steps 4
and the MeTTa-warning append of lines 423-425).  `list(set(...))` of line
431 is modelled by `List.dedup`: membership-faithful, though Python's set
iteration order is unspecified. -/
def recommend_treatments (e : TreatmentEngine) (primary_condition : String)
    (alternative_conditions : Option (List String)) (urgency_level : String)
    (patient_age : Option ℤ) (allergies current_medications : Option (List String))
    (medical_history : Option (List String)) : TreatmentResult :=
  let found := e.get_treatment_recommendations (normalizeCond primary_condition)
  let treatments :=
    if found.isEmpty then
      ["Consult healthcare provider for " ++ primary_condition ++ " treatment"]
    else found
  let safety_warnings := check_drug_interactions e treatments current_medications allergies
  let metta_warnings := treatments.filterMap fun t =>
    let w := e.get_safety_warning (normalizeCond t)
    if w = "" then none else some w
  ⟨treatments, (safety_warnings ++ metta_warnings).dedup⟩

/-- The differential-diagnosis step as the spec words it (§4.3 step 5):
keep the conditions with confidence above `0.2`, capped at `maxCount`, from
the descending sort; with the same fallback to the top two.  Stated from
the spec for comparison with `generate_differential_diagnoses`. -/
def specDifferentialDiagnoses (confidence_scores : List (String × ℚ))
    (maxCount : ℕ) : List String :=
  let sorted := sortBySndDesc confidence_scores
  let kept :=
    ((sorted.filter (fun p => decide (mkRat 1 5 < p.2))).take maxCount).map Prod.fst
  if kept.length < 2 ∧ 2 ≤ sorted.length then
    (sorted.take 2).map Prod.fst
  else kept

/-! ## Helper lemmas -/

/-- `qAdd` is addition on `ℚ`. -/
lemma qAdd_eq (a b : ℚ) : qAdd a b = a + b := by
  have ha : ((a.den : ℚ)) ≠ 0 := Nat.cast_ne_zero.mpr a.den_nz
  have hb : ((b.den : ℚ)) ≠ 0 := Nat.cast_ne_zero.mpr b.den_nz
  rw [qAdd, Rat.divInt_eq_div]
  push_cast
  conv_rhs => rw [← Rat.num_div_den a, ← Rat.num_div_den b, div_add_div _ _ ha hb]

/-- `qSub` is subtraction on `ℚ`. -/
lemma qSub_eq (a b : ℚ) : qSub a b = a - b := by
  rw [qSub, qAdd_eq, sub_eq_add_neg]
  rfl

/-- `qMul` is multiplication on `ℚ`. -/
lemma qMul_eq (a b : ℚ) : qMul a b = a * b := by
  rw [qMul, Rat.divInt_eq_div]
  push_cast
  conv_rhs => rw [← Rat.num_div_den a, ← Rat.num_div_den b, div_mul_div_comm]

/-- `qDiv` is division on `ℚ`. -/
lemma qDiv_eq (a b : ℚ) : qDiv a b = a / b := by
  rw [qDiv, Rat.divInt_eq_div]
  push_cast
  conv_rhs => rw [← Rat.num_div_den a, ← Rat.num_div_den b,
    div_eq_mul_inv (a.num / (a.den : ℚ)), inv_div, div_mul_div_comm]

/-- The constant `mkRat 1 2` as a fraction. -/
lemma mkRat_half : (mkRat 1 2 : ℚ) = 1/2 := by
  rw [Rat.mkRat_eq_divInt, Rat.divInt_eq_div]
  norm_num

/-- A successful association-list lookup returns a stored pair. -/
lemma mem_of_lookup_eq_some {α β : Type} [BEq α] [LawfulBEq α]
    {l : List (α × β)} {k : α} {v : β} (h : l.lookup k = some v) : (k, v) ∈ l := by
  induction l with
  | nil => simp [List.lookup] at h
  | cons p t ih =>
    obtain ⟨a, b⟩ := p
    rw [List.lookup_cons] at h
    cases hk : (k == a) with
    | true =>
      rw [hk] at h
      simp only [Option.some.injEq] at h
      exact (by rw [eq_of_beq hk, h]; exact List.mem_cons_self _ _)
    | false =>
      rw [hk] at h
      exact List.mem_cons_of_mem _ (ih h)

/-- Python's rounding to an integer keeps a value of `[0, n]` inside
`[0, n]`. -/
lemma pyRoundInt_bounds {y : ℚ} {n : ℤ} (h0 : 0 ≤ y) (h1 : y ≤ (n : ℚ)) :
    0 ≤ pyRoundInt y ∧ pyRoundInt y ≤ n := by
  have hf0 : (0 : ℤ) ≤ ⌊y⌋ := Int.floor_nonneg.mpr h0
  have hfle : (⌊y⌋ : ℚ) ≤ y := Int.floor_le y
  have hfn : ⌊y⌋ ≤ n := by exact_mod_cast hfle.trans h1
  simp only [pyRoundInt, qSub_eq, mkRat_half]
  split_ifs with hlt hgt hev
  · exact ⟨hf0, hfn⟩
  · refine ⟨by omega, ?_⟩
    have hstep : (⌊y⌋ : ℚ) + 1/2 < y := by linarith [hgt]
    have : (⌊y⌋ : ℚ) < (n : ℚ) := by linarith
    have : ⌊y⌋ < n := by exact_mod_cast this
    omega
  · exact ⟨hf0, hfn⟩
  · refine ⟨by omega, ?_⟩
    have hhalf : y - (⌊y⌋ : ℚ) = 1/2 := le_antisymm (not_lt.mp hgt) (not_lt.mp hlt)
    have : (⌊y⌋ : ℚ) + 1/2 ≤ (n : ℚ) := by linarith
    have hlt' : (⌊y⌋ : ℚ) < (n : ℚ) := by linarith
    have : ⌊y⌋ < n := by exact_mod_cast hlt'
    omega

/-- `pyRound2` keeps a value of `[0, 1]` inside `[0, 1]`. -/
lemma pyRound2_bounds {x : ℚ} (h0 : 0 ≤ x) (h1 : x ≤ 1) :
    0 ≤ pyRound2 x ∧ pyRound2 x ≤ 1 := by
  have hy0 : 0 ≤ x * 100 := by linarith
  have hy1 : x * 100 ≤ ((100 : ℤ) : ℚ) := by push_cast; linarith
  rw [show x * 100 = qMul x 100 from (qMul_eq x 100).symm] at hy0 hy1
  obtain ⟨ha, hb⟩ := pyRoundInt_bounds hy0 hy1
  unfold pyRound2
  rw [qDiv_eq]
  constructor
  · exact div_nonneg (by exact_mod_cast ha) (by norm_num)
  · rw [div_le_one (by norm_num)]
    exact_mod_cast hb

/-- The urgency scan only ever produces the three analyzer-level tokens
when started from one of `"routine"`/`"urgent"`. -/
lemma urgencyScan_mem (e : Engine) :
    ∀ (l : List (String × ℚ)) (h : String), h = "routine" ∨ h = "urgent" →
      urgencyScan e l h = "routine" ∨ urgencyScan e l h = "urgent" ∨
        urgencyScan e l h = "emergency" := by
  intro l
  induction l with
  | nil =>
    intro h hh
    rcases hh with h1 | h1 <;> simp [urgencyScan, h1]
  | cons p rest ih =>
    intro h hh
    obtain ⟨c, conf⟩ := p
    simp only [urgencyScan]
    split_ifs with h1 h2 h3 h4 h5 h6
    · tauto
    · tauto
    · exact ih _ (Or.inr rfl)
    · exact ih _ hh
    · exact ih _ (Or.inr rfl)
    · exact ih _ hh
    · exact ih _ hh

/-! ## Claim theorems -/

/-- C1: for every symptom list and every optional age, severity-score map
and medical history, and for every query backend, if
`SymptomAnalyzer.detect_red_flags` returns a non-empty list then the
urgency level produced by `SymptomAnalyzer.analyze_symptoms` (via
`assess_urgency`) is exactly `"emergency"`. -/
theorem red_flags_force_emergency (e : Engine) (symptoms : List String)
    (age : Option ℤ) (severity_scores : Option (List (String × ℤ)))
    (medical_history : Option (List String))
    (h : detect_red_flags e symptoms ≠ []) :
    (analyze_symptoms e symptoms age severity_scores medical_history).urgency_level =
      "emergency" := by
  simp only [analyze_symptoms, assess_urgency, if_neg h]

/-- Witness for C1 at the concrete input `["chest pain"]`, whose normalized
form is both an individual fallback red flag and the cardiac combination
rule's trigger. -/
theorem red_flags_force_emergency_witness :
    detect_red_flags fallbackEngine ["chest pain"] ≠ [] ∧
    (analyze_symptoms fallbackEngine ["chest pain"] none none none).urgency_level =
      "emergency" :=
  ⟨by decide, red_flags_force_emergency fallbackEngine ["chest pain"] none none none
    (by decide)⟩

/-- C10: whatever the symptom list, red-flag list, confidence-score map,
optional age and query backend (so in particular whatever urgency tokens
the backend returns), `SymptomAnalyzer.assess_urgency` returns one of
exactly `"emergency"`, `"urgent"` and `"routine"`. -/
theorem assess_urgency_three_valued (e : Engine) (conditions red_flags : List String)
    (confidence_scores : List (String × ℚ)) (age : Option ℤ) :
    assess_urgency e conditions red_flags confidence_scores age = "emergency" ∨
    assess_urgency e conditions red_flags confidence_scores age = "urgent" ∨
    assess_urgency e conditions red_flags confidence_scores age = "routine" := by
  by_cases hred : red_flags = []
  · have hm := urgencyScan_mem e confidence_scores "routine" (Or.inl rfl)
    cases age with
    | none =>
      simp only [assess_urgency, if_pos hred]
      tauto
    | some a =>
      simp only [assess_urgency, if_pos hred]
      split_ifs with h1 h2 h3 <;> rcases hm with h | h | h <;> simp [h]
  · simp only [assess_urgency, if_neg hred]
    tauto

/-- C5 counterexample: with red flags empty, a present age `0` (which is
below 5) and a confidence score `0.45 > 0.4`, `assess_urgency` leaves the
level at `"routine"` instead of raising it to `"urgent"`: Python's
`if age and (...)` is falsy at age `0`. -/
theorem age_zero_not_escalated :
    assess_urgency fallbackEngine [] [] [("common-cold", mkRat 45 100)] (some 0) =
      "routine" ∧ (0 : ℤ) < 5 ∧ mkRat 2 5 < mkRat 45 100 := by decide

/-- C5 (amended): in `assess_urgency` with red flags empty, if the patient
age is present and NONZERO and is `< 5` or `> 65`, and some confidence
score exceeds `0.4`, then a running urgency of `"routine"` is raised to
`"urgent"`; the age rule never escalates past `"urgent"` (the result is
`"emergency"` exactly when the confidence scan already produced it) and
the result is never left at `"routine"`. -/
theorem age_rule_escalates (e : Engine) (conditions : List String)
    (confidence_scores : List (String × ℚ)) (a : ℤ)
    (ha0 : a ≠ 0) (har : a < 5 ∨ 65 < a)
    (hconf : confidence_scores.any (fun p => decide (mkRat 2 5 < p.2)) = true) :
    (urgencyScan e confidence_scores "routine" = "routine" →
      assess_urgency e conditions [] confidence_scores (some a) = "urgent") ∧
    (assess_urgency e conditions [] confidence_scores (some a) = "emergency" ↔
      urgencyScan e confidence_scores "routine" = "emergency") ∧
    assess_urgency e conditions [] confidence_scores (some a) ≠ "routine" := by
  have hm := urgencyScan_mem e confidence_scores "routine" (Or.inl rfl)
  have hcond : a ≠ 0 ∧ (a < 5 ∨ 65 < a) := ⟨ha0, har⟩
  simp only [assess_urgency, if_pos rfl]
  rw [if_pos hcond, if_pos hconf]
  rcases hm with h | h | h <;> rw [h] <;> simp

/-- Witness for C5 at age `70` with a single `0.45` confidence score whose
condition the fallback backend maps to `"routine"`. -/
theorem age_rule_escalates_witness :
    ((70 : ℤ) ≠ 0 ∧ ((70 : ℤ) < 5 ∨ (65 : ℤ) < 70) ∧
      ([("common-cold", mkRat 45 100)].any (fun p => decide (mkRat 2 5 < p.2)) = true) ∧
      urgencyScan fallbackEngine [("common-cold", mkRat 45 100)] "routine" = "routine") ∧
    assess_urgency fallbackEngine [] [] [("common-cold", mkRat 45 100)] (some 70) =
      "urgent" :=
  ⟨⟨by decide, by decide, by decide, by decide⟩,
   (age_rule_escalates fallbackEngine [] [("common-cold", mkRat 45 100)] 70
      (by decide) (by decide) (by decide)).1 (by decide)⟩

/-- C3 counterexample: on `"I have a terrible headache"` the extractor
emits a record for plain `headache` as well — the claim's "does not yield
a record for the plain canonical symptom headache" fails, because the
`break` in `extract_symptoms` only stops further keyword variants of the
same canonical symptom, and each symptom entry is matched independently. -/
theorem plain_headache_also_extracted :
    "headache" ∈ (extract_symptoms "I have a terrible headache").map Symptom.name := by
  decide

/-- C3 (amended): `extract_symptoms "I have a terrible headache"` yields
the `severe-headache` record first — the more specific phrasing is listed,
and therefore matched, before the more general one — but it also yields a
second record for plain `headache`: the full output is exactly these two
records, in this order. -/
theorem terrible_headache_extraction :
    extract_symptoms "I have a terrible headache" =
      [⟨"severe-headache", "terrible headache", 8, none⟩,
       ⟨"headache", "headache", 8, none⟩] := by
  decide

/-- C4 counterexample: on `"severe headache for 2 days"` the extractor
returns two records, not one, and their duration is `"2 day"`, not
`"2 days"` — the regex alternation `(day|days|...)` matches `"day"` first
and nothing after the group forces backtracking. -/
theorem severe_headache_two_records :
    (extract_symptoms "severe headache for 2 days").length = 2 ∧
    (extract_symptoms "severe headache for 2 days").map Symptom.duration =
      [some "2 day", some "2 day"] := by
  decide

/-- C4 (amended): `extract_symptoms "severe headache for 2 days"` returns
exactly two records: `severe-headache` (raw text `"severe headache"`,
severity 8, duration `"2 day"`) followed by plain `headache` (same
severity and duration). -/
theorem severe_headache_extraction :
    extract_symptoms "severe headache for 2 days" =
      [⟨"severe-headache", "severe headache", 8, some "2 day"⟩,
       ⟨"headache", "headache", 8, some "2 day"⟩] := by
  decide

/-- C7: for every query backend and every condition token with no stored
treatments (in particular every token absent from the knowledge store),
`TreatmentRecommender.recommend_treatments` returns exactly one
synthesized placeholder treatment naming the requested condition — never
an empty list, and, being a total function, never an error. -/
theorem unknown_condition_placeholder (e : TreatmentEngine) (condition : String)
    (alts : Option (List String)) (urgency : String) (age : Option ℤ)
    (allergies meds hist : Option (List String))
    (h : e.get_treatment_recommendations (normalizeCond condition) = []) :
    (recommend_treatments e condition alts urgency age allergies meds hist).treatments =
      ["Consult healthcare provider for " ++ condition ++ " treatment"] := by
  simp [recommend_treatments, h]

/-- Witness for C7 at the unknown condition token `"dragon-pox"` against
the fallback backend. -/
theorem unknown_condition_placeholder_witness :
    treatmentFallbackEngine.get_treatment_recommendations (normalizeCond "dragon-pox") = [] ∧
    (recommend_treatments treatmentFallbackEngine "dragon-pox" none "routine" none
        none none none).treatments =
      ["Consult healthcare provider for " ++ "dragon-pox" ++ " treatment"] :=
  ⟨by decide, unknown_condition_placeholder treatmentFallbackEngine "dragon-pox" none
    "routine" none none none none (by decide)⟩

/-- C9: `recommend_treatments` for primary condition `"heart-attack"`,
urgency `"emergency"` and allergies `["aspirin"]` produces a
safety-warnings list containing the allergy alert that names
`aspirin-immediately`: the case-insensitive substring match of the allergy
token inside that treatment's display name fires. -/
theorem heart_attack_aspirin_allergy_alert :
    "🚫 ALLERGY ALERT: aspirin-immediately may contain aspirin" ∈
      (recommend_treatments treatmentFallbackEngine "heart-attack" none "emergency" none
        (some ["aspirin"]) none none).safety_warnings := by
  decide

/-- C6 counterexample: the two backends of
`SimplifiedMeTTaEngine.find_urgency_level` do not implement the same
urgency contract: on `"pneumonia"` the pattern backend answers
`"urgent-24h"` while the fallback answers `"urgent"`, and for a condition
absent from the data the fallback answers `"routine"`, never the
`"unknown"` the claim requires of both. -/
theorem backend_urgency_disagreement :
    patternFindUrgencyLevel "pneumonia" ≠ fallbackFindUrgencyLevel "pneumonia" ∧
    fallbackFindUrgencyLevel "absent-condition" ≠ "unknown" ∧
    patternFindUrgencyLevel "absent-condition" = "unknown" := by
  decide

/-- C6 (amended): the two `find_urgency_level` backends agree on a
condition token exactly when it is one of `meningitis`, `stroke` and
`heart-attack` (where both answer `"emergency"`); on every other token
they differ — in particular the pattern backend answers `"unknown"` and
the fallback `"routine"` for a token absent from both data sets. -/
theorem backend_urgency_agreement_iff (c : String) :
    patternFindUrgencyLevel c = fallbackFindUrgencyLevel c ↔
      c = "meningitis" ∨ c = "stroke" ∨ c = "heart-attack" := by
  by_cases h1 : c = "meningitis"
  · subst h1; decide
  by_cases h2 : c = "stroke"
  · subst h2; decide
  by_cases h3 : c = "heart-attack"
  · subst h3; decide
  by_cases h4 : c = "appendicitis"
  · subst h4; decide
  by_cases h5 : c = "pneumonia"
  · subst h5; decide
  by_cases h6 : c = "pulmonary-embolism"
  · subst h6; decide
  by_cases h7 : c = "sepsis"
  · subst h7; decide
  by_cases h8 : c = "migraine"
  · subst h8; decide
  by_cases h9 : c = "influenza"
  · subst h9; decide
  by_cases h10 : c = "gastroenteritis"
  · subst h10; decide
  by_cases h11 : c = "covid-19"
  · subst h11; decide
  by_cases h12 : c = "tension-headache"
  · subst h12; decide
  by_cases h13 : c = "common-cold"
  · subst h13; decide
  have hp : patternFindUrgencyLevel c = "unknown" := by
    simp only [patternFindUrgencyLevel, kbUrgencyFacts, List.lookup,
      beq_eq_false_iff_ne.mpr h1, beq_eq_false_iff_ne.mpr h2, beq_eq_false_iff_ne.mpr h3, beq_eq_false_iff_ne.mpr h4, beq_eq_false_iff_ne.mpr h5, beq_eq_false_iff_ne.mpr h6, beq_eq_false_iff_ne.mpr h7, beq_eq_false_iff_ne.mpr h8, beq_eq_false_iff_ne.mpr h9, beq_eq_false_iff_ne.mpr h10, beq_eq_false_iff_ne.mpr h11, beq_eq_false_iff_ne.mpr h12, beq_eq_false_iff_ne.mpr h13]
    rfl
  have hf : fallbackFindUrgencyLevel c = "routine" := by
    simp only [fallbackFindUrgencyLevel, fallbackUrgencyMap, List.lookup,
      beq_eq_false_iff_ne.mpr h1, beq_eq_false_iff_ne.mpr h2, beq_eq_false_iff_ne.mpr h3, beq_eq_false_iff_ne.mpr h5, beq_eq_false_iff_ne.mpr h9, beq_eq_false_iff_ne.mpr h11, beq_eq_false_iff_ne.mpr h8, beq_eq_false_iff_ne.mpr h10]
    rfl
  rw [hp, hf]
  simp [h1, h2, h3]

/-- C2 counterexample: with the arbitrary integer severity map
`{"fever": -20}` the score of `influenza` for symptoms `["fever"]` is
`-0.06 < 0` — the severity weight `0.5 + avgSeverity/20` becomes negative,
so the claim's lower bound `0.0 ≤ score` fails for arbitrary
integer-valued severity maps. -/
theorem negative_confidence_score :
    calculate_confidence_scores fallbackEngine ["fever"] ["influenza"]
        (some [("fever", -20)]) = [("influenza", mkRat (-3) 50)] ∧
      (mkRat (-3) 50 : ℚ) < 0 := by
  decide

/-- C2 (amended): for every backend, symptom list, condition list and
severity-score map all of whose values are nonnegative (Python severities
are 1-10; the unrestricted claim fails by `negative_confidence_score`),
every confidence score produced by
`SymptomAnalyzer.calculate_confidence_scores` lies in `[0, 1]`, and a
condition whose symptom set in the knowledge store is empty scores
exactly `0.0`. -/
theorem confidence_scores_bounds (e : Engine) (symptoms conditions : List String)
    (severity_scores : Option (List (String × ℤ)))
    (hsev : ∀ p ∈ severity_scores.getD [], (0 : ℤ) ≤ p.2) :
    (∀ p ∈ calculate_confidence_scores e symptoms conditions severity_scores,
        0 ≤ p.2 ∧ p.2 ≤ 1) ∧
    (∀ c ∈ conditions, e.find_symptoms_by_condition c = [] →
        (c, (0 : ℚ)) ∈ calculate_confidence_scores e symptoms conditions severity_scores) := by
  have key : ∀ c : String, 0 ≤ condition_confidence e symptoms severity_scores c ∧
      condition_confidence e symptoms severity_scores c ≤ 1 := by
    intro c
    unfold condition_confidence
    by_cases hcs : (e.find_symptoms_by_condition c).isEmpty
    · rw [if_pos hcs]
      norm_num
    · rw [if_neg hcs]
      refine pyRound2_bounds ?_ (min_le_right _ _)
      refine le_min ?_ zero_le_one
      rw [qMul_eq]
      refine mul_nonneg ?_ ?_
      · rw [qDiv_eq]
        positivity
      · cases severity_scores with
        | none => norm_num
        | some m =>
          by_cases hm : m.isEmpty
          · simp [hm]
          · simp only [hm, Bool.false_eq_true, if_false]
            rw [qAdd_eq, mkRat_half, qDiv_eq, qDiv_eq]
            have hS : (0 : ℚ) ≤
                (((((symptoms.map normalizeSymptom).dedup).filter
                  (fun s => (e.find_symptoms_by_condition c).contains s)).map
                    (fun s => ((m.lookup s).getD 5 : ℤ))).sum : ℚ) := by
              have : (0 : ℤ) ≤ ((((symptoms.map normalizeSymptom).dedup).filter
                  (fun s => (e.find_symptoms_by_condition c).contains s)).map
                    (fun s => ((m.lookup s).getD 5 : ℤ))).sum := by
                refine List.sum_nonneg ?_
                intro x hx
                obtain ⟨s, hs, rfl⟩ := List.mem_map.mp hx
                cases hls : m.lookup s with
                | none => simp
                | some v =>
                  simp only [Option.getD_some]
                  exact hsev (s, v) (mem_of_lookup_eq_some hls)
              exact_mod_cast this
            have hrest : (0 : ℚ) ≤
                (((((symptoms.map normalizeSymptom).dedup).filter
                  (fun s => (e.find_symptoms_by_condition c).contains s)).map
                    (fun s => ((m.lookup s).getD 5 : ℤ))).sum : ℚ) /
                  ((max (((symptoms.map normalizeSymptom).dedup).filter
                    (fun s => (e.find_symptoms_by_condition c).contains s)).length 1 : ℕ) : ℚ) /
                  20 := by
              refine div_nonneg (div_nonneg hS ?_) (by norm_num)
              positivity
            linarith
  constructor
  · intro p hp
    simp only [calculate_confidence_scores, List.mem_map] at hp
    obtain ⟨c, _, rfl⟩ := hp
    exact key c
  · intro c hc hempty
    simp only [calculate_confidence_scores, List.mem_map]
    refine ⟨c, hc, ?_⟩
    have : condition_confidence e symptoms severity_scores c = 0 := by
      unfold condition_confidence
      rw [if_pos (by simp [hempty])]
    rw [this]

/-- Witness for C2: the nonnegative severity map `{"fever": 7}` on
symptoms `["fever"]` gives `influenza` the score `0.11`, which the theorem
places inside `[0, 1]`. -/
theorem confidence_scores_bounds_witness :
    (∀ p ∈ ((some [("fever", (7 : ℤ))] : Option (List (String × ℤ))).getD []),
        (0 : ℤ) ≤ p.2) ∧
    (0 ≤ (mkRat 11 100 : ℚ) ∧ (mkRat 11 100 : ℚ) ≤ 1) :=
  ⟨by decide,
   (confidence_scores_bounds fallbackEngine ["fever"] ["influenza"]
      (some [("fever", 7)]) (by decide)).1 ("influenza", mkRat 11 100) (by decide)⟩

/-- The stable descending sort is pairwise descending on the confidence
component. -/
lemma sortBySndDesc_pairwise (l : List (String × ℚ)) :
    (sortBySndDesc l).Pairwise (fun a b => b.2 ≤ a.2) := by
  have h := @List.sorted_mergeSort (String × ℚ) (fun a b => decide (b.2 ≤ a.2))
    (fun a b c hab hbc => by
      simp only [decide_eq_true_eq] at *
      exact le_trans hbc hab)
    (fun a b => by
      simp only [Bool.or_eq_true, decide_eq_true_eq]
      exact le_total b.2 a.2)
    l
  exact h.imp (fun hab => of_decide_eq_true hab)

/-- In a descending-sorted score list, filtering by `> 0.2` after
truncation equals truncating the filtered list: the surviving entries form
a prefix. -/
lemma filter_take_of_sorted :
    ∀ (l : List (String × ℚ)) (n : ℕ),
      l.Pairwise (fun a b => b.2 ≤ a.2) →
      (l.take n).filter (fun p => decide (mkRat 1 5 < p.2)) =
        (l.filter (fun p => decide (mkRat 1 5 < p.2))).take n := by
  intro l
  induction l with
  | nil => intro n _; simp
  | cons x xs ih =>
    intro n hp
    obtain ⟨hx, hxs⟩ := List.pairwise_cons.mp hp
    cases n with
    | zero => simp
    | succ m =>
      rw [List.take_succ_cons]
      by_cases hpx : mkRat 1 5 < x.2
      · rw [List.filter_cons_of_pos (by simpa using hpx),
          List.filter_cons_of_pos (by simpa using hpx),
          List.take_succ_cons, ih m hxs]
      · have hfail : ∀ y ∈ xs, ¬ (mkRat 1 5 < y.2) :=
          fun y hy hlt => hpx (lt_of_lt_of_le hlt (hx y hy))
        have hall : xs.filter (fun p => decide (mkRat 1 5 < p.2)) = [] :=
          List.filter_eq_nil_iff.mpr (fun y hy => by simpa using hfail y hy)
        have htake : (xs.take m).filter (fun p => decide (mkRat 1 5 < p.2)) = [] :=
          List.filter_eq_nil_iff.mpr (fun y hy => by
            simpa using hfail y (List.take_subset m xs hy))
        rw [List.filter_cons_of_neg (by simpa using hpx),
          List.filter_cons_of_neg (by simpa using hpx), hall, htake]
        simp

/-- C8: for every confidence-score map,
`SymptomAnalyzer.generate_differential_diagnoses` returns exactly the
spec-worded result `specDifferentialDiagnoses`: the conditions sorted by
confidence descending, keeping those with confidence above `0.2`, capped
at 5, with the fallback to the top two whenever fewer than two survive the
threshold while at least two scored conditions exist. -/
theorem differential_diagnoses_follow_spec (confidence_scores : List (String × ℚ)) :
    generate_differential_diagnoses confidence_scores 5 =
      specDifferentialDiagnoses confidence_scores 5 := by
  simp only [generate_differential_diagnoses, specDifferentialDiagnoses]
  rw [filter_take_of_sorted _ 5 (sortBySndDesc_pairwise confidence_scores)]
